import Mathlib

/-!
Verification of the traffic-simulator core (`simulationEngine.ts`).

The engine is shallowly embedded over exact rationals.  JS `number` is
modelled as `ℚ`; the two transcendental library calls the engine makes,
`Math.sqrt` and `Math.atan2`, are abstracted into a `MathModel` record so
that every general theorem holds for an arbitrary interpretation of them;
the concrete instance `realisticMath` used by closed witnesses computes the
exact square root (all concrete geometries below only take square roots of
perfect squares, where the model agrees with the ideal real-valued
function).  Headings play no role in any verified property.

JS `null`/`undefined` fields are modelled with `Option`; the optional
`blockingVehicles` array is modelled as a plain list (`undefined` behaves
exactly like the empty list in every use site of the source).
-/

/-- One lane polyline point.  The source also carries `attribute` and
`height` on lane points; the simulation engine never reads them, so they
are omitted from the embedding. -/
structure LanePoint where
  x : ℚ
  y : ℚ
  visibility : Nat
deriving DecidableEq, Repr

/-- The up-to-three successor links of a lane (`null` = absent). -/
structure Links where
  forward : Option String
  forward_left : Option String
  forward_right : Option String
deriving DecidableEq, Repr

/-- A lane.  `vvirtual` embeds the source field `virtual` (absent =
`false`). -/
structure Lane where
  id : String
  name : String
  points : List LanePoint
  links : Links
  roadId : Option String
  color : String
  vvirtual : Bool := false
deriving DecidableEq, Repr

/-- A road.  `rot` embeds the source field `rotation` (unused by the
engine). -/
structure Road where
  id : String
  name : String
  x : Option ℚ := none
  y : Option ℚ := none
  width : Option ℚ := none
  height : Option ℚ := none
  rot : Option ℚ := none
  zIndex : Option ℚ := none
  color : String
deriving DecidableEq, Repr

/-- A 2-D point used for vehicle positions and segment endpoints. -/
structure Pt where
  x : ℚ
  y : ℚ
deriving DecidableEq, Repr

/-- A vehicle.  `vtype` embeds `type`, `rot` embeds `rotation`,
`dimLength`/`dimWidth` embed `dimensions.length`/`dimensions.width`. -/
structure Vehicle where
  id : String
  vtype : String
  route : List String
  currentLaneIndex : Nat
  progress : ℚ
  speed : ℚ
  position : Pt
  sourceRoadId : String
  targetRoadId : String
  color : String
  visible : Bool
  dimLength : ℚ
  dimWidth : ℚ
  rot : ℚ
  stoppedSince : Nat
  maxSpeed : Option ℚ := none
  blockingVehicles : List (String × Nat) := []
deriving DecidableEq, Repr

/-- The world snapshot. -/
structure SimulationState where
  roads : List Road
  lanes : List Lane
  vehicles : List Vehicle
deriving DecidableEq, Repr

/-- Abstraction of the two `Math` library functions the engine calls.
Every general theorem below is proved for an arbitrary model. -/
structure MathModel where
  sqrt : ℚ → ℚ
  atan2 : ℚ → ℚ → ℚ

/-- Newton iteration for the integer square root, with explicit fuel so
that it reduces by plain structural recursion. -/
def sqrtIter : Nat → Nat → Nat → Nat
  | 0, _, guess => guess
  | fuel + 1, n, guess =>
    let next := (guess + n / guess) / 2
    if next < guess then sqrtIter fuel n next else guess

/-- Integer square root (exact on perfect squares). -/
def natSqrt (n : Nat) : Nat :=
  if n ≤ 1 then n else sqrtIter n n (n / 2)

/-- Rational square root used by concrete witnesses: exact whenever
numerator and denominator are perfect squares (every concrete case in this
file), approximate otherwise.  No general theorem depends on its values:
they are all proved for an arbitrary `MathModel`. -/
def sqrtQ (q : ℚ) : ℚ :=
  if q.num < 0 then 0
  else (natSqrt q.num.natAbs : ℚ) / (natSqrt q.den : ℚ)

/-- Concrete math model for closed witnesses; the heading function is
irrelevant to every verified property and is fixed to `0`. -/
def realisticMath : MathModel := ⟨sqrtQ, fun _ _ => 0⟩

-- ---------------------
--   Simulation Settings (source constants)
-- ---------------------

def DEFAULT_VEHICLE_SPEED : ℚ := 10
def MIN_VEHICLE_SPEED : ℚ := 0
def VEHICLE_ACCELERATION : ℚ := 2
def VEHICLE_DECELERATION : ℚ := 4
def SAFE_DISTANCE_MULTIPLIER : ℚ := 2.5
def DANGER_RADIUS : ℚ := 50
def DEFAULT_INFLOW_RATE : ℚ := 0.2
def DEFAULT_TURN_PROBABILITY : ℚ := 0.25

/-- Per-road traffic settings (the source's mutable global
`roadTrafficSettings`, threaded explicitly). -/
structure RoadSettings where
  inflow : ℚ
  turnProbability : ℚ
deriving DecidableEq, Repr

/-- The seeded linear-congruential generator `random()`:
`seed = (seed * 1664525 + 1013904223) % 4294967296` and the drawn value is
`seed / 4294967296` computed from the updated seed. -/
def randomStep (seed : Nat) : ℚ × Nat :=
  let s2 := (seed * 1664525 + 1013904223) % 4294967296
  ((s2 : ℚ) / 4294967296, s2)

-- ---------------------
--   Helper Functions
-- ---------------------

/-- `isEndLane`: a lane is a valid destination if it belongs to
`targetRoadId` and has no further links. -/
def isEndLane (lane : Lane) (targetRoadId : String) : Bool :=
  lane.roadId == some targetRoadId &&
  lane.links.forward.isNone &&
  lane.links.forward_left.isNone &&
  lane.links.forward_right.isNone

/-- The non-null links of a lane in the source's fixed order
`forward`, `forward_left`, `forward_right` (the `filter(Boolean)`). -/
def laneLinksList (lane : Lane) : List String :=
  [lane.links.forward, lane.links.forward_left, lane.links.forward_right].filterMap id

/-- `lanes.find(l => l.id === laneId)`. -/
def findLaneById (lanes : List Lane) (laneId : String) : Option Lane :=
  lanes.find? (fun l => l.id == laneId)

mutual

/-- The recursive `dfs` closure inside `findRoute`.  The source recursion
terminates because the `visited` set grows on every call; here a fuel
parameter bounds the recursion depth, and every verified property holds
for every fuel value.  The mutated `visited` set is threaded through
explicitly (second component of the result). -/
def dfsRoute (lanes : List Lane) (targetRoadId : String) :
    Nat → List String → String → List String → Option (List String) × List String
  | 0, visited, _, _ => (none, visited)
  | fuel + 1, visited, currentLaneId, path =>
    if currentLaneId ∈ visited then (none, visited)
    else
      let visited2 := currentLaneId :: visited
      match findLaneById lanes currentLaneId with
      | none => (none, visited2)
      | some lane =>
        let newPath := path ++ [currentLaneId]
        if isEndLane lane targetRoadId then (some newPath, visited2)
        else dfsLinks lanes targetRoadId fuel visited2 (laneLinksList lane) newPath
termination_by f _ _ _ => (f, 0)

/-- The `for (const nextLaneId of nextLinks)` loop of `dfs`: try each link
in order, returning the first non-null result and threading `visited`. -/
def dfsLinks (lanes : List Lane) (targetRoadId : String) :
    Nat → List String → List String → List String → Option (List String) × List String
  | _, visited, [], _ => (none, visited)
  | fuel, visited, nextLaneId :: rest, path =>
    match dfsRoute lanes targetRoadId fuel visited nextLaneId path with
    | (some r, v2) => (some r, v2)
    | (none, v2) => dfsLinks lanes targetRoadId fuel v2 rest path
termination_by f _ l _ => (f, l.length + 1)

end

/-- `findRoute`: DFS from `startLaneId` to an end lane on `targetRoadId`.
The fuel `3 * lanes.length + 2` exceeds the depth the source recursion can
reach (each level permanently marks a fresh id visited, and at most
`3 * lanes.length + 1` distinct ids are reachable). -/
def findRoute (lanes : List Lane) (startLaneId : String) (targetRoadId : String) :
    Option (List String) :=
  (dfsRoute lanes targetRoadId (3 * lanes.length + 2) [] startLaneId []).1

/-- `getCandidateEntryLanes`: lanes that belong to `roadId` and are not
referenced as links by any lane. -/
def getCandidateEntryLanes (lanes : List Lane) (roadId : String) : List Lane :=
  let referencedLaneIds := lanes.flatMap laneLinksList
  lanes.filter (fun l => l.roadId == some roadId && !(referencedLaneIds.contains l.id))

/-- `computeLaneLength`: total polyline length. -/
def computeLaneLength (M : MathModel) (lane : Lane) : ℚ :=
  (lane.points.zip lane.points.tail).foldl
    (fun acc pq =>
      let dx := pq.2.x - pq.1.x
      let dy := pq.2.y - pq.1.y
      acc + M.sqrt (dx * dx + dy * dy)) 0

/-- Result of `getPositionAndVisibilityOnLane`. -/
structure PosInfo where
  x : ℚ
  y : ℚ
  visible : Bool
  rot : ℚ
deriving DecidableEq, Repr

/-- Walk the segments of a polyline; `some` when the remaining progress
falls inside a segment. -/
def posWalk (M : MathModel) : LanePoint → List LanePoint → ℚ → Option PosInfo
  | _, [], _ => none
  | start, nxt :: rest, remaining =>
    let dx := nxt.x - start.x
    let dy := nxt.y - start.y
    let segLen := M.sqrt (dx * dx + dy * dy)
    if remaining ≤ segLen then
      let frac := remaining / segLen
      some { x := start.x + dx * frac, y := start.y + dy * frac,
             visible := (if frac < 0.5 then start.visibility else nxt.visibility) == 1,
             rot := M.atan2 dy dx }
    else posWalk M nxt rest (remaining - segLen)

/-- Fallback default point (an empty-points lane would crash the source
with a `TypeError`; the embedding is total). -/
def defaultLanePoint : LanePoint := ⟨0, 0, 0⟩

/-- `getPositionAndVisibilityOnLane`: position, visibility and heading at
an arc-length progress; past the last point it returns the last point with
heading 0. -/
def getPositionAndVisibilityOnLane (M : MathModel) (lane : Lane) (progress : ℚ) : PosInfo :=
  match lane.points with
  | [] => { x := 0, y := 0, visible := false, rot := 0 }
  | p :: rest =>
    match posWalk M p rest progress with
    | some r => r
    | none =>
      let lastPoint := lane.points.getLastD defaultLanePoint
      { x := lastPoint.x, y := lastPoint.y, visible := lastPoint.visibility == 1, rot := 0 }

/-- A line segment. -/
structure Seg where
  start : Pt
  stop : Pt
deriving DecidableEq, Repr

/-- `doLineSegmentsIntersect`: standard 2-D segment intersection with the
source's epsilon guards; shared endpoints (within `0.001`) are excluded. -/
def doLineSegmentsIntersect (x1 y1 x2 y2 x3 y3 x4 y4 : ℚ) : Bool :=
  if (|x1 - x3| < 0.001 && |y1 - y3| < 0.001) ||
     (|x1 - x4| < 0.001 && |y1 - y4| < 0.001) ||
     (|x2 - x3| < 0.001 && |y2 - y3| < 0.001) ||
     (|x2 - x4| < 0.001 && |y2 - y4| < 0.001) then false
  else
    let d1x := x2 - x1
    let d1y := y2 - y1
    let d2x := x4 - x3
    let d2y := y4 - y3
    let det := d1x * d2y - d1y * d2x
    if |det| < 0.001 then false
    else
      let dx := x3 - x1
      let dy := y3 - y1
      let t := (dx * d2y - dy * d2x) / det
      let u := (dx * d1y - dy * d1x) / det
      decide (t > 0 ∧ t < 1 ∧ u > 0 ∧ u < 1)

/-- Inner loop of `getLaneSegmentsNearProgress`: append whole following
segments while look-ahead distance remains positive. -/
def collectSegs (M : MathModel) : ℚ → LanePoint → List LanePoint → List Seg
  | _, _, [] => []
  | remainingDistance, prev, q :: rest =>
    if remainingDistance > 0 then
      let dx := q.x - prev.x
      let dy := q.y - prev.y
      let segLen := M.sqrt (dx * dx + dy * dy)
      ⟨⟨prev.x, prev.y⟩, ⟨q.x, q.y⟩⟩ :: collectSegs M (remainingDistance - segLen) q rest
    else []

/-- Locate the segment containing `progress` and emit the partial segment
from the current position plus look-ahead segments (up to 50 units);
`none` when `progress` is outside every segment. -/
def segsFrom (M : MathModel) (progress : ℚ) : ℚ → LanePoint → List LanePoint → Option (List Seg)
  | _, _, [] => none
  | currentProgress, start, q :: rest =>
    let dx := q.x - start.x
    let dy := q.y - start.y
    let segLen := M.sqrt (dx * dx + dy * dy)
    if currentProgress ≤ progress ∧ progress ≤ currentProgress + segLen then
      let progressInSegment := progress - currentProgress
      let remainingInSegment := segLen - progressInSegment
      let frac := progressInSegment / segLen
      let currentPos : Pt := ⟨start.x + dx * frac, start.y + dy * frac⟩
      let remainingDistance := 50 - remainingInSegment
      some (⟨currentPos, ⟨q.x, q.y⟩⟩ ::
        (if remainingDistance > 0 then collectSegs M remainingDistance q rest else []))
    else segsFrom M progress (currentProgress + segLen) q rest

/-- `getLaneSegmentsNearProgress`: segments of a lane near a progress
point, looking ahead up to 50 units; if the progress is beyond the lane,
the last segment is returned. -/
def getLaneSegmentsNearProgress (M : MathModel) (lane : Lane) (progress : ℚ) : List Seg :=
  match lane.points with
  | [] => []
  | p :: rest =>
    match segsFrom M progress 0 p rest with
    | some segs => segs
    | none =>
      if lane.points.length ≥ 2 then
        let lastIdx := lane.points.length - 1
        [⟨let a := lane.points.getD (lastIdx - 1) defaultLanePoint; ⟨a.x, a.y⟩,
          let b := lane.points.getD lastIdx defaultLanePoint; ⟨b.x, b.y⟩⟩]
      else []

/-- `checkLanesCrossing`.  The source consults the module-global
`loadedRoads` here (not the stepped state's roads); it is threaded as the
explicit `loadedRoads` argument. -/
def checkLanesCrossing (M : MathModel) (loadedRoads : List Road)
    (lane1 lane2 : Lane) (progress1 progress2 : ℚ) : Bool :=
  let gradeSeparated : Bool :=
    match lane1.roadId, lane2.roadId with
    | some r1id, some r2id =>
      match loadedRoads.find? (fun r => r.id == r1id),
            loadedRoads.find? (fun r => r.id == r2id) with
      | some road1, some road2 => road1.zIndex != road2.zIndex
      | _, _ => false
    | _, _ => false
  if gradeSeparated then false
  else
    let pos1 := getPositionAndVisibilityOnLane M lane1 progress1
    let pos2 := getPositionAndVisibilityOnLane M lane2 progress2
    let dx := pos1.x - pos2.x
    let dy := pos1.y - pos2.y
    let dist := M.sqrt (dx * dx + dy * dy)
    if dist > DANGER_RADIUS then false
    else
      let lane1Segments := getLaneSegmentsNearProgress M lane1 progress1
      let lane2Segments := getLaneSegmentsNearProgress M lane2 progress2
      lane1Segments.any (fun seg1 => lane2Segments.any (fun seg2 =>
        doLineSegmentsIntersect seg1.start.x seg1.start.y seg1.stop.x seg1.stop.y
          seg2.start.x seg2.start.y seg2.stop.x seg2.stop.y))

/-- The lane id at a vehicle's current route index
(`vehicle.route[vehicle.currentLaneIndex]`; `none` = out of bounds). -/
def currentLaneIdOf (v : Vehicle) : Option String :=
  v.route[v.currentLaneIndex]?

/-- `lanes.find(l => l.id === vehicle.route[vehicle.currentLaneIndex])`
(an out-of-bounds index compares equal to no lane id). -/
def currentLaneOf (lanes : List Lane) (v : Vehicle) : Option Lane :=
  match currentLaneIdOf v with
  | none => none
  | some lid => findLaneById lanes lid

/-- `getBlockingVehicles`: same-or-next-lane vehicles ahead and vehicles
on geometrically crossing lanes. -/
def getBlockingVehicles (M : MathModel) (loadedRoads : List Road)
    (vehicle : Vehicle) (vehicles : List Vehicle) (lanes : List Lane) :
    List Vehicle × List Vehicle :=
  match currentLaneOf lanes vehicle with
  | none => ([], [])
  | some currentLane =>
    let currentLaneId := currentLane.id
    let laneLength := computeLaneLength M currentLane
    let isNearEnd := laneLength - vehicle.progress < vehicle.dimLength * 2
    let nextLaneId : Option String :=
      if isNearEnd ∧ vehicle.currentLaneIndex < vehicle.route.length - 1 then
        vehicle.route[vehicle.currentLaneIndex + 1]?
      else none
    let vehiclesInFront := vehicles.filter (fun v =>
      if v.id == vehicle.id then false
      else
        let isInCurrentLane := currentLaneIdOf v == some currentLaneId
        let isAhead := isInCurrentLane && decide (v.progress > vehicle.progress) &&
          decide (v.progress - vehicle.progress < 50)
        let isInNextLane := nextLaneId.isSome && currentLaneIdOf v == nextLaneId
        let isNearStart := isInNextLane && decide (v.progress < vehicle.dimLength * 3)
        isAhead || isNearStart)
    let crossingVehicles := vehicles.filter (fun v =>
      if v.id == vehicle.id || vehiclesInFront.contains v then false
      else
        match currentLaneOf lanes v with
        | none => false
        | some vLane =>
          let isCrossingCurrentLane :=
            checkLanesCrossing M loadedRoads currentLane vLane vehicle.progress v.progress
          let isCrossingNextLane :=
            match nextLaneId with
            | none => false
            | some nid =>
              match findLaneById lanes nid with
              | none => false
              | some nextLane => checkLanesCrossing M loadedRoads nextLane vLane 0 v.progress
          isCrossingCurrentLane || isCrossingNextLane)
    (vehiclesInFront, crossingVehicles)

/-- The `if (distance < minDistance)` scan of `distanceToNearestVehicle`;
`none` plays the role of the initial `Infinity`. -/
def bestOf (dist : Vehicle → ℚ) (isCross : Bool) :
    List Vehicle → Option (ℚ × Vehicle × Bool) → Option (ℚ × Vehicle × Bool)
  | [], acc => acc
  | w :: rest, acc =>
    let d := dist w
    let takeIt := match acc with
      | none => true
      | some (m, _, _) => decide (d < m)
    bestOf dist isCross rest (if takeIt then some (d, w, isCross) else acc)

/-- `distanceToNearestVehicle`: the minimum-gap perceived vehicle.
`none` is the source's `{distance: Infinity, leadVehicle: null}`. -/
def distanceToNearestVehicle (M : MathModel) (vehicle : Vehicle)
    (blockingInfo : List Vehicle × List Vehicle) (lanes : List Lane) :
    Option (ℚ × Vehicle × Bool) :=
  let (vehiclesInFront, crossingVehicles) := blockingInfo
  if vehiclesInFront.isEmpty ∧ crossingVehicles.isEmpty then none
  else
    match currentLaneOf lanes vehicle with
    | none => none
    | some currentLane =>
      let currentLaneId := currentLane.id
      let laneLength := computeLaneLength M currentLane
      let frontDist := fun (blockingVehicle : Vehicle) =>
        if currentLaneIdOf blockingVehicle == some currentLaneId then
          blockingVehicle.progress - blockingVehicle.dimLength / 2 -
            (vehicle.progress + vehicle.dimLength / 2)
        else laneLength - vehicle.progress + blockingVehicle.progress
      let crossDist := fun (crossingVehicle : Vehicle) =>
        let dx := crossingVehicle.position.x - vehicle.position.x
        let dy := crossingVehicle.position.y - vehicle.position.y
        M.sqrt (dx * dx + dy * dy) -
          (vehicle.dimLength / 2 + crossingVehicle.dimLength / 2)
      bestOf crossDist true crossingVehicles
        (bestOf frontDist false vehiclesInFront none)

/-- The `maxSpeed !== undefined ? maxSpeed * 0.6 : g * 0.6` expression of
`handleDeadlock` (an explicit undefined-check, not JS truthiness). -/
def deadlockSpeed (vehicle : Vehicle) (g : ℚ) : ℚ :=
  match vehicle.maxSpeed with
  | some m => m * 0.6
  | none => g * 0.6

/-- `vehicle.maxSpeed || currentGlobalVehicleSpeed`: JS truthiness, so a
`maxSpeed` of `0` also falls back to the global speed. -/
def orElseG (m : Option ℚ) (g : ℚ) : ℚ :=
  match m with
  | some v => if v = 0 then g else v
  | none => g

/-- `handleDeadlock`: escape policy for long-stopped vehicles. -/
def handleDeadlock (g : ℚ) (vehicle : Vehicle) (leadVehicle : Option Vehicle)
    (isCrossing : Bool) (currentSpeed : ℚ) (currentClearPath : Bool)
    (allVehicles : List Vehicle) : ℚ × Bool :=
  if isCrossing then
    match leadVehicle with
    | some lead =>
      if lead.speed = 0 ∧ lead.stoppedSince > 0 then
        if vehicle.stoppedSince ≥ lead.stoppedSince then (deadlockSpeed vehicle g, true)
        else (currentSpeed, currentClearPath)
      else (currentSpeed, currentClearPath)
    | none => (currentSpeed, currentClearPath)
  else
    let vehiclesDirectlyAhead := allVehicles.filter (fun v =>
      if v.id == vehicle.id then false
      else
        (currentLaneIdOf v == currentLaneIdOf vehicle) &&
        decide (v.progress > vehicle.progress))
    if vehiclesDirectlyAhead.isEmpty then (deadlockSpeed vehicle g, true)
    else (currentSpeed, currentClearPath)

/-- `handleSafetyZone`: match 90% of the lead's speed, floored by the
deceleration step. -/
def handleSafetyZone (g : ℚ) (vehicle : Vehicle) (leadVehicle : Option Vehicle)
    (currentSpeed : ℚ) (newBlockingVehicles : List (String × Nat)) :
    ℚ × Bool × List (String × Nat) :=
  match leadVehicle with
  | some lead =>
    (min (lead.speed * 0.9) (max MIN_VEHICLE_SPEED (vehicle.speed - VEHICLE_DECELERATION)),
     false, newBlockingVehicles ++ [(lead.id, 0)])
  | none =>
    (min (orElseG vehicle.maxSpeed g) (vehicle.speed + VEHICLE_ACCELERATION),
     true, newBlockingVehicles)

/-- The blocking-vehicle bookkeeping of the hard-stop branch. -/
def recordBlock (vehicle : Vehicle) (lead : Vehicle) : List (String × Nat) :=
  match vehicle.blockingVehicles.find? (fun b => b.1 == lead.id) with
  | some existingBlock => [(lead.id, existingBlock.2 + 1)]
  | none => [(lead.id, 0)]

/-- The `if / else if` chain of `updateVehicle`'s speed policy, on
`(distance, leadVehicle, isCrossing)`: returns the tentative new speed,
the clear-path flag, and the recorded blocking list.  The vehicle is
assumed to have already passed the lane check and the `maxSpeed`
initialization. -/
def speedChain (M : MathModel) (loadedRoads : List Road) (g : ℚ)
    (vehicle : Vehicle) (lanes : List Lane) (allVehicles : List Vehicle) :
    ℚ × Bool × List (String × Nat) :=
  let blockingInfo := getBlockingVehicles M loadedRoads vehicle allVehicles lanes
  let dres := distanceToNearestVehicle M vehicle blockingInfo lanes
  let safeDistance := vehicle.dimLength * SAFE_DISTANCE_MULTIPLIER
  match dres with
  | none => (vehicle.speed, true, [])
  | some (d, leadVehicle, isCrossing) =>
    if d < safeDistance * 0.5 then
      let nbv := recordBlock vehicle leadVehicle
      if vehicle.stoppedSince > 5 then
        let dl := handleDeadlock g vehicle (some leadVehicle) isCrossing 0 false allVehicles
        (dl.1, dl.2, nbv)
      else (0, false, nbv)
    else if d < safeDistance then
      if vehicle.stoppedSince > 5 ∧ isCrossing = true then
        let dl := handleDeadlock g vehicle (some leadVehicle) isCrossing
          vehicle.speed true allVehicles
        (dl.1, dl.2, [])
      else
        handleSafetyZone g vehicle (some leadVehicle) vehicle.speed []
    else if leadVehicle.speed < vehicle.speed then
      if vehicle.speed - leadVehicle.speed > 5 ∧
         d / (vehicle.speed - leadVehicle.speed) < 2 then
        (max leadVehicle.speed (vehicle.speed - VEHICLE_DECELERATION), false, [])
      else (vehicle.speed, true, [])
    else (vehicle.speed, true, [])

/-- The full speed policy of `updateVehicle`: the `if / else if` chain
followed by the clear-path acceleration and the low-speed failsafe.
Returns the resolved new speed and the recorded blocking list. -/
def speedDecision (M : MathModel) (loadedRoads : List Road) (g : ℚ)
    (vehicle : Vehicle) (lanes : List Lane) (allVehicles : List Vehicle) :
    ℚ × List (String × Nat) :=
  -- the if / else-if chain on (distance, leadVehicle, isCrossing)
  let s1 := speedChain M loadedRoads g vehicle lanes allVehicles
  -- clear-path acceleration
  let s2 := if s1.2.1 then min (orElseG vehicle.maxSpeed g) (vehicle.speed + VEHICLE_ACCELERATION)
            else s1.1
  -- low-speed failsafe
  let s3 := if vehicle.speed < orElseG vehicle.maxSpeed g * 0.5 ∧ s1.2.1 = true then
              min (orElseG vehicle.maxSpeed g * 0.6) (s2 + VEHICLE_ACCELERATION * 1.5)
            else s2
  (s3, s1.2.2)

/-- `updateVehicle`.  The RNG seed is threaded explicitly (consumed only
by the `maxSpeed` initialization); `none` means the vehicle finished its
route. -/
def updateVehicle (M : MathModel) (loadedRoads : List Road) (g : ℚ)
    (lanes : List Lane) (allVehicles : List Vehicle) (seed : Nat)
    (vehicle : Vehicle) : Option Vehicle × Nat :=
  match currentLaneOf lanes vehicle with
  | none => (some vehicle, seed)
  | some lane =>
    if lane.points.length < 2 then (some vehicle, seed)
    else
      -- `if (vehicle.maxSpeed === undefined) vehicle.maxSpeed = g + (random()*10 - 5)`
      let vehicle2 :=
        match vehicle.maxSpeed with
        | none => { vehicle with maxSpeed := some (g + ((randomStep seed).1 * 10 - 5)) }
        | some _ => vehicle
      let seed2 :=
        match vehicle.maxSpeed with
        | none => (randomStep seed).2
        | some _ => seed
      let sd := speedDecision M loadedRoads g vehicle2 lanes allVehicles
      let newSpeed := sd.1
      let newBlockingVehicles := sd.2
      let laneLength := computeLaneLength M lane
      let newProgress := vehicle2.progress + newSpeed
      let stoppedSince := if newSpeed = 0 then vehicle2.stoppedSince + 1 else 0
      if newProgress < laneLength then
        let pos := getPositionAndVisibilityOnLane M lane newProgress
        (some { vehicle2 with
                  currentLaneIndex := vehicle2.currentLaneIndex,
                  progress := newProgress,
                  position := ⟨pos.x, pos.y⟩,
                  rot := pos.rot,
                  speed := newSpeed,
                  stoppedSince := stoppedSince,
                  blockingVehicles := newBlockingVehicles }, seed2)
      else
        match (match vehicle2.route[vehicle2.currentLaneIndex + 1]? with
               | none => none
               | some nid => findLaneById lanes nid) with
        | some nextLane =>
          let leftover := newProgress - laneLength
          let pos := getPositionAndVisibilityOnLane M nextLane leftover
          (some { vehicle2 with
                    currentLaneIndex := vehicle2.currentLaneIndex + 1,
                    progress := newProgress - laneLength,
                    position := ⟨pos.x, pos.y⟩,
                    rot := pos.rot,
                    speed := newSpeed,
                    stoppedSince := stoppedSince,
                    blockingVehicles := newBlockingVehicles }, seed2)
        | none => (none, seed2)

/-- `updateVehicleVisibility`: a vehicle is invisible when a strictly
higher-layer road's footprint contains its position; the base road is the
road owning its current lane, or the first linked lane's road. -/
def updateVehicleVisibility (vehicle : Vehicle) (lanes : List Lane) (roads : List Road) :
    Vehicle :=
  match currentLaneOf lanes vehicle with
  | none => vehicle
  | some currentLane =>
    let relevantRoadId : Option String :=
      match currentLane.roadId with
      | some rid => some rid
      | none =>
        (laneLinksList currentLane).findSome? (fun linkedLaneId =>
          match findLaneById lanes linkedLaneId with
          | some linkedLane => linkedLane.roadId
          | none => none)
    match relevantRoadId with
    | none => { vehicle with visible := true }
    | some rrid =>
      let baseZ : ℚ :=
        match roads.find? (fun (r : Road) => r.id == rrid) with
        | some baseRoad => baseRoad.zIndex.getD 0
        | none => 0
      let underHigherRoad := roads.any (fun (road : Road) =>
        match road.zIndex, road.x, road.y, road.width, road.height with
        | some z, some rx, some ry, some rw, some rh =>
          decide (z > baseZ ∧ vehicle.position.x ≥ rx ∧ vehicle.position.x ≤ rx + rw ∧
            vehicle.position.y ≥ ry ∧ vehicle.position.y ≤ ry + rh)
        | _, _, _, _, _ => false)
      { vehicle with visible := !underHigherRoad }

/-- Does a candidate entry lane already hold a vehicle within the fixed
clearance threshold (30) of its start? -/
def laneBusy (vehicles : List Vehicle) (candidate : Lane) : Bool :=
  vehicles.any (fun v => currentLaneIdOf v == some candidate.id && decide (v.progress < 30))

/-- The per-road spawn attempt (the body of step 1 of `simulationStep`).
`shuffle` is an oracle standing for the unseeded `Math.random`-based
shuffle the source computes into `shuffledCandidates`; the source then
iterates the UNSHUFFLED `candidates` list, so the oracle's output is bound
but never read.  Returns the spawned vehicle (if any) plus the updated
seed and vehicle counter. -/
def spawnForRoad (settings : String → Option RoadSettings) (g : ℚ)
    (shuffle : List Lane → List Lane) (state : SimulationState) (road : Road)
    (seed : Nat) (counter : Nat) : Option Vehicle × Nat × Nat :=
  let st := (settings road.id).getD ⟨DEFAULT_INFLOW_RATE, DEFAULT_TURN_PROBABILITY⟩
  let r1 := (randomStep seed).1
  let seed1 := (randomStep seed).2
  if r1 < st.inflow then
    let candidates := getCandidateEntryLanes state.lanes road.id
    let entryLane : Option Lane :=
      if candidates.length > 0 then
        let shuffledCandidates := shuffle candidates
        candidates.find? (fun candidate => !laneBusy state.vehicles candidate)
      else none
    match entryLane with
    | none => (none, seed1, counter)
    | some entry =>
      let r2 := (randomStep seed1).1
      let seed2 := (randomStep seed1).2
      -- (targetRoad, seed after the optional third draw)
      let sel : Road × Nat :=
        if r2 < st.turnProbability then
          let otherRoads := state.roads.filter (fun r => !(r.id == road.id))
          if otherRoads.length > 0 then
            (otherRoads.getD (Rat.floor ((randomStep seed2).1 * otherRoads.length)).toNat
               road,
             (randomStep seed2).2)
          else (road, seed2)
        else (road, seed2)
      match findRoute state.lanes entry.id sel.1.id with
      | none => (none, sel.2, counter)
      | some route =>
        let counter2 := counter + 1
        let startPos := entry.points.getD 0 defaultLanePoint
        let maxSpeed := g + ((randomStep sel.2).1 * 10 - 5)
        (some { id := toString counter2,
                vtype := "car",
                route := route,
                currentLaneIndex := 0,
                progress := 0,
                speed := maxSpeed * 0.7,
                position := ⟨startPos.x, startPos.y⟩,
                sourceRoadId := road.id,
                targetRoadId := sel.1.id,
                color := sel.1.color,
                visible := true,
                dimLength := 20,
                dimWidth := 10,
                rot := 0,
                stoppedSince := 0,
                maxSpeed := some maxSpeed,
                blockingVehicles := [] }, (randomStep sel.2).2, counter2)
  else (none, seed1, counter)

/-- The route-completion cleanup predicate of step 3 of `simulationStep`
(`true` = keep the vehicle). -/
def keepVehicle (M : MathModel) (lanes : List Lane) (vehicle : Vehicle) : Bool :=
  match currentLaneOf lanes vehicle with
  | none => false
  | some currentLane =>
    let laneLength := computeLaneLength M currentLane
    !(vehicle.currentLaneIndex == vehicle.route.length - 1 &&
      decide (laneLength ≤ vehicle.progress))

/-- `simulationStep`: spawn → advance → cleanup → visibility.  All the
source's module-global mutable state is threaded explicitly: `loadedRoads`
(read by the crossing check), `settings` (`roadTrafficSettings`), `g`
(`currentGlobalVehicleSpeed`), the RNG `seed` and the `vehicleCounter`. -/
def simulationStep (M : MathModel) (loadedRoads : List Road)
    (settings : String → Option RoadSettings) (g : ℚ)
    (shuffle : List Lane → List Lane) (seed : Nat) (counter : Nat)
    (state : SimulationState) : SimulationState × Nat × Nat :=
  let oldVehicles := state.vehicles
  -- 1. spawn new vehicles on each road based on inflow
  let spawned := state.roads.foldl
    (fun (acc : List Vehicle × Nat × Nat) road =>
      match spawnForRoad settings g shuffle state road acc.2.1 acc.2.2 with
      | (some v, sd, cn) => (acc.1 ++ [v], sd, cn)
      | (none, sd, cn) => (acc.1, sd, cn)) ([], seed, counter)
  -- 2. update positions for each existing vehicle
  let updated := oldVehicles.foldl
    (fun (acc : List Vehicle × Nat) vehicle =>
      match updateVehicle M loadedRoads g state.lanes oldVehicles acc.2 vehicle with
      | (some v, sd) => (acc.1 ++ [v], sd)
      | (none, sd) => (acc.1, sd)) ([], spawned.2.1)
  let updatedVehicles := spawned.1 ++ updated.1
  -- 3. remove vehicles that have finished their route
  let finalVehicles := updatedVehicles.filter (keepVehicle M state.lanes)
  -- 4. per-vehicle visibility
  let finalVehiclesWithVisibility :=
    finalVehicles.map (fun v => updateVehicleVisibility v state.lanes state.roads)
  ({ roads := state.roads, lanes := state.lanes, vehicles := finalVehiclesWithVisibility },
   updated.2, spawned.2.2)

-- ---------------------
--   Virtual (connector) lane synthesis at network load
-- ---------------------

/-- The id `v${lane.id}to${targetLane.id}` of a synthesized connector. -/
def virtualLaneId (lane targetLane : Lane) : String :=
  "v" ++ lane.id ++ "to" ++ targetLane.id

/-- The connector lane synthesized for a link from `lane` to
`targetLane`: a two-point lane from the source's last point to the
target's first point, both marked invisible, owned by no road, flagged
virtual, linking forward to the original target. -/
def makeVirtualLane (lane targetLane : Lane) : Lane :=
  { id := virtualLaneId lane targetLane,
    name := "v" ++ lane.name ++ "to" ++ targetLane.name,
    points := [{ lane.points.getLastD defaultLanePoint with visibility := 0 },
               { targetLane.points.getD 0 defaultLanePoint with visibility := 0 }],
    links := ⟨some targetLane.id, none, none⟩,
    roadId := none,
    color := lane.color,
    vvirtual := true }

/-- The three link slots, in the source's iteration order. -/
inductive LinkKey | fw | fl | fr
deriving DecidableEq, Repr

/-- Read one link slot. -/
def linkGet (links : Links) : LinkKey → Option String
  | .fw => links.forward
  | .fl => links.forward_left
  | .fr => links.forward_right

/-- The in-place rewrite `lane.links[linkKey] = virtualLaneId` applied to
one slot: a link whose target lane exists is redirected to the connector;
a dangling link is left untouched. -/
def rewriteLink (lanes : List Lane) (lane : Lane) (link : Option String) : Option String :=
  match link with
  | none => none
  | some targetLaneId =>
    match findLaneById lanes targetLaneId with
    | none => some targetLaneId
    | some targetLane => some (virtualLaneId lane targetLane)

/-- A loaded lane after connector substitution (all three slots). -/
def rewriteLane (lanes : List Lane) (lane : Lane) : Lane :=
  { lane with links := ⟨rewriteLink lanes lane lane.links.forward,
                        rewriteLink lanes lane lane.links.forward_left,
                        rewriteLink lanes lane lane.links.forward_right⟩ }

/-- All connector lanes pushed onto `virtualLanes`, in source order: per
lane, the slots `forward`, `forward_left`, `forward_right`. -/
def collectVirtualLanes (lanes : List Lane) : List Lane :=
  lanes.flatMap (fun lane =>
    [LinkKey.fw, LinkKey.fl, LinkKey.fr].filterMap (fun k =>
      match linkGet lane.links k with
      | none => none
      | some targetLaneId =>
        match findLaneById lanes targetLaneId with
        | none => none
        | some targetLane => some (makeVirtualLane lane targetLane)))

/-- `allLanes = loadedLanes.concat(virtualLanes)` — the one-time
load-time transform (performed identically by the module initializer and
by `loadInterchangeData`).  The source mutates `lane.links` while
iterating; since ids and points are never mutated and every link target is
read before its own slot is overwritten, the pure two-pass form is
equivalent. -/
def addVirtualLanes (lanes : List Lane) : List Lane :=
  lanes.map (rewriteLane lanes) ++ collectVirtualLanes lanes

-- ---------------------
--   Verified properties
-- ---------------------

/-- C7.  Grade separation: for two lanes each owning a road, if the owning
roads (looked up among the loaded roads) have different layer indices
(`zIndex`), `checkLanesCrossing` returns `false` for any progress values —
grade-separated lanes never register as crossing regardless of geometric
overlap. -/
theorem checkLanesCrossing_grade_separation
    (M : MathModel) (loadedRoads : List Road) (lane1 lane2 : Lane)
    (progress1 progress2 : ℚ) (r1id r2id : String) (road1 road2 : Road)
    (h1 : lane1.roadId = some r1id) (h2 : lane2.roadId = some r2id)
    (h3 : loadedRoads.find? (fun (r : Road) => r.id == r1id) = some road1)
    (h4 : loadedRoads.find? (fun (r : Road) => r.id == r2id) = some road2)
    (h5 : road1.zIndex ≠ road2.zIndex) :
    checkLanesCrossing M loadedRoads lane1 lane2 progress1 progress2 = false := by
  simp only [checkLanesCrossing, h1, h2, h3, h4]
  simp [bne_iff_ne, h5]

def c7road1 : Road := { id := "RA", name := "RA", zIndex := some 0, color := "a" }

def c7road2 : Road := { id := "RB", name := "RB", zIndex := some 1, color := "b" }

def c7lane1 : Lane :=
  { id := "la", name := "la", points := [⟨0, 0, 1⟩, ⟨10, 0, 1⟩],
    links := ⟨none, none, none⟩, roadId := some "RA", color := "a" }

def c7lane2 : Lane :=
  { id := "lb", name := "lb", points := [⟨5, -5, 1⟩, ⟨5, 5, 1⟩],
    links := ⟨none, none, none⟩, roadId := some "RB", color := "b" }

/-- Witness for C7: two geometrically intersecting lanes on roads of
layers 0 and 1 do not register as crossing. -/
theorem checkLanesCrossing_grade_separation_witness :
    checkLanesCrossing realisticMath [c7road1, c7road2] c7lane1 c7lane2 3 3 = false :=
  checkLanesCrossing_grade_separation realisticMath [c7road1, c7road2] c7lane1 c7lane2
    3 3 "RA" "RB" c7road1 c7road2 rfl rfl (by decide) (by decide) (by decide)

/-- C9.  Malformed-lane fallback: a vehicle whose current route lane is
missing from the lane set or has fewer than 2 points is returned unchanged
(same lane index, progress, speed, position — the very same vehicle value)
for that tick, and the RNG seed is untouched. -/
theorem updateVehicle_malformed_lane_unchanged
    (M : MathModel) (loadedRoads : List Road) (g : ℚ) (lanes : List Lane)
    (allVehicles : List Vehicle) (seed : Nat) (vehicle : Vehicle)
    (h : currentLaneOf lanes vehicle = none ∨
         ∃ lane, currentLaneOf lanes vehicle = some lane ∧ lane.points.length < 2) :
    updateVehicle M loadedRoads g lanes allVehicles seed vehicle = (some vehicle, seed) := by
  unfold updateVehicle
  rcases h with h | ⟨lane, h, hlt⟩
  · rw [h]
  · rw [h]
    simp [hlt]

def c9vehicle : Vehicle :=
  { id := "9", vtype := "car", route := ["ghost"], currentLaneIndex := 0,
    progress := 7, speed := 3, position := ⟨1, 2⟩, sourceRoadId := "R",
    targetRoadId := "R", color := "c", visible := true, dimLength := 20,
    dimWidth := 10, rot := 0, stoppedSince := 0, maxSpeed := some 10 }

/-- Witness for C9: a vehicle routed onto a lane absent from the lane set
is held in place. -/
theorem updateVehicle_malformed_lane_unchanged_witness :
    updateVehicle realisticMath [] 10 [] [c9vehicle] 2 c9vehicle = (some c9vehicle, 2) :=
  updateVehicle_malformed_lane_unchanged realisticMath [] 10 [] [c9vehicle] 2 c9vehicle
    (Or.inl (by decide))

/-- The spawn attempt never reads the shuffle oracle's output (the
`shuffledCandidates` binding is dead code in the source). -/
theorem spawnForRoad_shuffle_irrel
    (settings : String → Option RoadSettings) (g : ℚ)
    (shuffle1 shuffle2 : List Lane → List Lane) (state : SimulationState)
    (road : Road) (seed counter : Nat) :
    spawnForRoad settings g shuffle1 state road seed counter =
      spawnForRoad settings g shuffle2 state road seed counter := by
  unfold spawnForRoad
  rfl

/-- C10.  Determinism of a tick: `simulationStep` is a pure function of
the snapshot, the seeded-RNG state, the vehicle counter, the traffic
settings and the global speed — and it is moreover independent of the
unseeded `Math.random` shuffle oracle, because the shuffled candidate list
is bound but never read (candidates are tried in their listed order), so
two runs with equal seeded state but arbitrary different shuffles produce
equal output snapshots, seeds and counters. -/
theorem simulationStep_shuffle_independent
    (M : MathModel) (loadedRoads : List Road) (settings : String → Option RoadSettings)
    (g : ℚ) (shuffle1 shuffle2 : List Lane → List Lane) (seed counter : Nat)
    (state : SimulationState) :
    simulationStep M loadedRoads settings g shuffle1 seed counter state =
      simulationStep M loadedRoads settings g shuffle2 seed counter state := by
  unfold simulationStep
  simp only [spawnForRoad_shuffle_irrel settings g shuffle1 shuffle2 state]

def c6laneA : Lane :=
  { id := "A", name := "A", points := [⟨0, 0, 1⟩, ⟨10, 0, 1⟩],
    links := ⟨some "B", none, none⟩, roadId := none, color := "c" }

def c6laneB : Lane :=
  { id := "B", name := "B", points := [⟨10, 0, 1⟩, ⟨20, 0, 1⟩],
    links := ⟨none, none, none⟩, roadId := none, color := "c" }

/-- Counterexample to C6 as stated: lane `A` ends exactly where lane `B`
starts (the source lane's last point coincides with the target lane's
first point), yet the load transform still synthesizes a (zero-length)
connector for the `A → B` link — the synthesis is not conditional on the
endpoints differing. -/
theorem connector_synthesized_despite_coincident_endpoints :
    (c6laneA.points.getLastD defaultLanePoint).x =
      (c6laneB.points.getD 0 defaultLanePoint).x ∧
    (c6laneA.points.getLastD defaultLanePoint).y =
      (c6laneB.points.getD 0 defaultLanePoint).y ∧
    (collectVirtualLanes [c6laneA, c6laneB]).length = 1 ∧
    collectVirtualLanes [c6laneA, c6laneB] = [makeVirtualLane c6laneA c6laneB] := by
  decide

/-- C6 (amended).  At network load a virtual connector lane is synthesized
for a link if and only if the link is non-absent and its target lane
exists in the lane set — regardless of whether the source lane's last
point coincides with the target lane's first point (coincident endpoints
produce a degenerate zero-length connector).  Each synthesized connector
is a two-point lane (both points invisible), owned by no road, flagged
virtual, substituted in place of the original link, and itself links
forward to the original target lane. -/
theorem addVirtualLanes_connector_characterization (lanes : List Lane) :
    (∀ w, w ∈ collectVirtualLanes lanes ↔
       ∃ lane k targetLaneId targetLane,
         lane ∈ lanes ∧ linkGet lane.links k = some targetLaneId ∧
         findLaneById lanes targetLaneId = some targetLane ∧
         w = makeVirtualLane lane targetLane) ∧
    (∀ lane targetLane,
       (makeVirtualLane lane targetLane).roadId = none ∧
       (makeVirtualLane lane targetLane).vvirtual = true ∧
       (makeVirtualLane lane targetLane).points.length = 2 ∧
       (∀ p ∈ (makeVirtualLane lane targetLane).points, p.visibility = 0) ∧
       (makeVirtualLane lane targetLane).links.forward = some targetLane.id ∧
       (makeVirtualLane lane targetLane).links.forward_left = none ∧
       (makeVirtualLane lane targetLane).links.forward_right = none) ∧
    (∀ lane k targetLaneId targetLane, lane ∈ lanes →
       linkGet lane.links k = some targetLaneId →
       findLaneById lanes targetLaneId = some targetLane →
       linkGet (rewriteLane lanes lane).links k = some (virtualLaneId lane targetLane) ∧
       makeVirtualLane lane targetLane ∈ collectVirtualLanes lanes ∧
       rewriteLane lanes lane ∈ addVirtualLanes lanes) := by
  refine ⟨?_, ?_, ?_⟩
  · intro w
    constructor
    · intro hw
      rw [collectVirtualLanes, List.mem_flatMap] at hw
      obtain ⟨lane, hlane, hw⟩ := hw
      rw [List.mem_filterMap] at hw
      obtain ⟨k, _, hg⟩ := hw
      split at hg
      next => exact absurd hg (by simp)
      next t hlg =>
        split at hg
        next => exact absurd hg (by simp)
        next tl hfl =>
          simp only [Option.some.injEq] at hg
          exact ⟨lane, k, t, tl, hlane, hlg, hfl, hg.symm⟩
    · rintro ⟨lane, k, t, tl, hlane, hlg, hfl, rfl⟩
      rw [collectVirtualLanes, List.mem_flatMap]
      refine ⟨lane, hlane, ?_⟩
      rw [List.mem_filterMap]
      refine ⟨k, by cases k <;> simp, ?_⟩
      simp [hlg, hfl]
  · intro lane tl
    refine ⟨rfl, rfl, rfl, ?_, rfl, rfl, rfl⟩
    intro p hp
    simp only [makeVirtualLane, List.mem_cons, List.not_mem_nil, or_false] at hp
    rcases hp with hp | hp <;> subst hp <;> rfl
  · intro lane k t tl hlane hlg hfl
    refine ⟨?_, ?_, ?_⟩
    · cases k <;> simp only [linkGet] at hlg ⊢ <;>
        simp [rewriteLane, rewriteLink, hlg, hfl, virtualLaneId]
    · rw [collectVirtualLanes, List.mem_flatMap]
      refine ⟨lane, hlane, ?_⟩
      rw [List.mem_filterMap]
      refine ⟨k, by cases k <;> simp, ?_⟩
      simp [hlg, hfl]
    · rw [addVirtualLanes]
      exact List.mem_append_left _ (List.mem_map_of_mem _ hlane)

def c6witLaneA : Lane :=
  { id := "A", name := "A", points := [⟨0, 0, 1⟩, ⟨10, 0, 1⟩],
    links := ⟨some "B", none, none⟩, roadId := none, color := "c" }

def c6witLaneB : Lane :=
  { id := "B", name := "B", points := [⟨40, 7, 1⟩, ⟨60, 7, 1⟩],
    links := ⟨none, none, none⟩, roadId := none, color := "c" }

/-- Witness for C6 (amended), at a link with a genuine geometric gap. -/
theorem addVirtualLanes_connector_characterization_witness :
    linkGet (rewriteLane [c6witLaneA, c6witLaneB] c6witLaneA).links LinkKey.fw =
      some (virtualLaneId c6witLaneA c6witLaneB) ∧
    makeVirtualLane c6witLaneA c6witLaneB ∈ collectVirtualLanes [c6witLaneA, c6witLaneB] ∧
    rewriteLane [c6witLaneA, c6witLaneB] c6witLaneA ∈ addVirtualLanes [c6witLaneA, c6witLaneB] :=
  (addVirtualLanes_connector_characterization [c6witLaneA, c6witLaneB]).2.2
    c6witLaneA LinkKey.fw "B" c6witLaneB (by decide) (by decide) (by decide)

/-- C3.  Hard stop: when the nearest perceived blocking vehicle yields a
gap strictly below half the safe distance
(`safeDistance = length × multiplier`) and the consecutive-stopped-ticks
counter is at or below the deadlock threshold (5), the resolved new speed
is exactly 0 — both as computed by the speed policy and as stored in the
vehicle `updateVehicle` returns. -/
theorem hard_stop_resolves_zero_speed
    (M : MathModel) (loadedRoads : List Road) (g : ℚ) (lanes : List Lane)
    (allVehicles : List Vehicle) (vehicle : Vehicle) (d : ℚ) (lead : Vehicle)
    (isCross : Bool)
    (h1 : distanceToNearestVehicle M vehicle
            (getBlockingVehicles M loadedRoads vehicle allVehicles lanes) lanes =
          some (d, lead, isCross))
    (h2 : d < vehicle.dimLength * SAFE_DISTANCE_MULTIPLIER * 0.5)
    (h3 : vehicle.stoppedSince ≤ 5) :
    (speedDecision M loadedRoads g vehicle lanes allVehicles).1 = 0 ∧
    (∀ lane seed v2 s2, currentLaneOf lanes vehicle = some lane →
       ¬ lane.points.length < 2 → vehicle.maxSpeed.isSome = true →
       updateVehicle M loadedRoads g lanes allVehicles seed vehicle = (some v2, s2) →
       v2.speed = 0) := by
  have hchain : speedChain M loadedRoads g vehicle lanes allVehicles =
      (0, false, recordBlock vehicle lead) := by
    unfold speedChain
    dsimp only
    rw [h1]
    have h3n : ¬ vehicle.stoppedSince > 5 := by omega
    simp only [if_pos h2, if_neg h3n]
  have hmain : (speedDecision M loadedRoads g vehicle lanes allVehicles).1 = 0 := by
    unfold speedDecision
    rw [hchain]
    simp
  refine ⟨hmain, ?_⟩
  intro lane seed v2 s2 hlane hpts hms hupd
  obtain ⟨m, hm⟩ := Option.isSome_iff_exists.mp hms
  unfold updateVehicle at hupd
  rw [hlane] at hupd
  simp only [if_neg hpts, hm, hmain] at hupd
  split at hupd
  · simp only [Prod.mk.injEq, Option.some.injEq] at hupd
    rw [← hupd.1]
  · split at hupd
    · simp only [Prod.mk.injEq, Option.some.injEq] at hupd
      rw [← hupd.1]
    · simp at hupd

def c3lane : Lane :=
  { id := "S", name := "S", points := [⟨0, 0, 1⟩, ⟨100, 0, 1⟩],
    links := ⟨none, none, none⟩, roadId := none, color := "c" }

def c3vehicle : Vehicle :=
  { id := "1", vtype := "car", route := ["S"], currentLaneIndex := 0, progress := 0,
    speed := 8, position := ⟨0, 0⟩, sourceRoadId := "R", targetRoadId := "R",
    color := "c", visible := true, dimLength := 20, dimWidth := 10, rot := 0,
    stoppedSince := 0, maxSpeed := some 10 }

def c3blocker : Vehicle :=
  { id := "2", vtype := "car", route := ["S"], currentLaneIndex := 0, progress := 40,
    speed := 0, position := ⟨40, 0⟩, sourceRoadId := "R", targetRoadId := "R",
    color := "c", visible := true, dimLength := 20, dimWidth := 10, rot := 0,
    stoppedSince := 3, maxSpeed := some 10 }

set_option maxRecDepth 4000 in
/-- Witness for C3 (spec Scenario 4): a stationary same-lane blocker with
gap exactly `0.4 × safeDistance` forces resolved speed 0. -/
theorem hard_stop_resolves_zero_speed_witness :
    distanceToNearestVehicle realisticMath c3vehicle
      (getBlockingVehicles realisticMath [] c3vehicle [c3vehicle, c3blocker] [c3lane])
      [c3lane] = some (20, c3blocker, false) ∧
    (20 : ℚ) = 0.4 * (c3vehicle.dimLength * SAFE_DISTANCE_MULTIPLIER) ∧
    (speedDecision realisticMath [] 10 c3vehicle [c3lane] [c3vehicle, c3blocker]).1 = 0 :=
  ⟨by with_unfolding_all decide, by with_unfolding_all decide,
   (hard_stop_resolves_zero_speed realisticMath [] 10 [c3lane] [c3vehicle, c3blocker]
      c3vehicle 20 c3blocker false (by with_unfolding_all decide)
      (by with_unfolding_all decide) (by decide)).1⟩

/-- C4 (amended).  Deadlock crossing escape: a vehicle stopped longer
than the threshold whose nearest blocker is a stopped crossing vehicle
that has waited no longer than itself is granted a positive speed — but
not `0.6 × max` as such: `handleDeadlock` proposes `0.6 × max` and sets
the clear-path flag, after which the acceleration step and the low-speed
failsafe rewrite it to `min (0.6 × max) (min max (speed + 2) + 3)`, i.e.
`min (0.6 × max) 5` for a stopped vehicle with `max ≥ 2`. -/
theorem deadlock_crossing_escape_clamped
    (M : MathModel) (loadedRoads : List Road) (g : ℚ) (lanes : List Lane)
    (allVehicles : List Vehicle) (vehicle : Vehicle) (d : ℚ) (lead : Vehicle) (m : ℚ)
    (h1 : distanceToNearestVehicle M vehicle
            (getBlockingVehicles M loadedRoads vehicle allVehicles lanes) lanes =
          some (d, lead, true))
    (h2 : d < vehicle.dimLength * SAFE_DISTANCE_MULTIPLIER * 0.5)
    (h3 : vehicle.stoppedSince > 5)
    (h4 : lead.speed = 0) (h5 : lead.stoppedSince > 0)
    (h6 : lead.stoppedSince ≤ vehicle.stoppedSince)
    (h7 : vehicle.speed = 0)
    (h8 : vehicle.maxSpeed = some m) (h9 : 2 ≤ m) :
    (speedDecision M loadedRoads g vehicle lanes allVehicles).1 = min (m * 0.6) 5 ∧
    0 < (speedDecision M loadedRoads g vehicle lanes allVehicles).1 := by
  have hm0 : m ≠ 0 := by intro h; rw [h] at h9; norm_num at h9
  have hds : deadlockSpeed vehicle g = m * 0.6 := by
    unfold deadlockSpeed; rw [h8]
  have hdl : handleDeadlock g vehicle (some lead) true 0 false allVehicles =
      (m * 0.6, true) := by
    unfold handleDeadlock
    simp [h4, h5, h6, hds]
  have hchain : speedChain M loadedRoads g vehicle lanes allVehicles =
      (m * 0.6, true, recordBlock vehicle lead) := by
    unfold speedChain
    dsimp only
    rw [h1]
    simp only [if_pos h2, if_pos h3, hdl]
  have horelse : orElseG vehicle.maxSpeed g = m := by
    rw [h8]; unfold orElseG; simp [hm0]
  have hcond : (0 : ℚ) < m * 0.5 := by linarith
  have hmin2 : min m ((0 : ℚ) + VEHICLE_ACCELERATION) = 2 := by
    rw [min_eq_right] <;> norm_num [VEHICLE_ACCELERATION] <;> linarith
  have hfinal : (speedDecision M loadedRoads g vehicle lanes allVehicles).1 =
      min (m * 0.6) 5 := by
    unfold speedDecision
    rw [hchain]
    dsimp only
    rw [horelse, h7]
    simp only [eq_self_iff_true, if_true, and_true]
    rw [if_pos hcond, hmin2]
    norm_num [VEHICLE_ACCELERATION]
  refine ⟨hfinal, ?_⟩
  rw [hfinal]
  apply lt_min (by linarith) (by norm_num)

def c4laneH : Lane :=
  { id := "H", name := "H", points := [⟨0, 0, 1⟩, ⟨100, 0, 1⟩],
    links := ⟨none, none, none⟩, roadId := none, color := "c" }

def c4laneV : Lane :=
  { id := "V", name := "V", points := [⟨46, 58, 1⟩, ⟨46, -42, 1⟩],
    links := ⟨none, none, none⟩, roadId := none, color := "c" }

def c4vehicle : Vehicle :=
  { id := "1", vtype := "car", route := ["H"], currentLaneIndex := 0, progress := 40,
    speed := 0, position := ⟨40, 0⟩, sourceRoadId := "R", targetRoadId := "R",
    color := "c", visible := true, dimLength := 20, dimWidth := 10, rot := 0,
    stoppedSince := 6, maxSpeed := some 10 }

def c4blocker : Vehicle :=
  { id := "2", vtype := "car", route := ["V"], currentLaneIndex := 0, progress := 50,
    speed := 0, position := ⟨46, 8⟩, sourceRoadId := "R", targetRoadId := "R",
    color := "c", visible := true, dimLength := 20, dimWidth := 10, rot := 0,
    stoppedSince := 6, maxSpeed := some 10 }

set_option maxRecDepth 4000 in
/-- Counterexample to C4 as stated: in a concrete symmetric crossing
deadlock (stopped-for-6-ticks vehicle of personal maximum 10 blocked by an
equally long-stopped crossing vehicle), `handleDeadlock` proposes
`0.6 × max = 6`, but because it also sets the clear-path flag, the
subsequent acceleration step and low-speed failsafe overwrite it: the
resolved speed is `5`, not 60% of the maximum. -/
theorem deadlock_crossing_escape_cex :
    c4vehicle.stoppedSince > 5 ∧
    distanceToNearestVehicle realisticMath c4vehicle
      (getBlockingVehicles realisticMath [] c4vehicle [c4vehicle, c4blocker]
        [c4laneH, c4laneV]) [c4laneH, c4laneV] = some (-10, c4blocker, true) ∧
    c4blocker.speed = 0 ∧ c4blocker.stoppedSince > 0 ∧
    c4blocker.stoppedSince ≤ c4vehicle.stoppedSince ∧
    c4vehicle.maxSpeed = some 10 ∧
    (speedDecision realisticMath [] 10 c4vehicle [c4laneH, c4laneV]
      [c4vehicle, c4blocker]).1 = 5 ∧
    ¬ ((speedDecision realisticMath [] 10 c4vehicle [c4laneH, c4laneV]
      [c4vehicle, c4blocker]).1 = 10 * 0.6) := by
  with_unfolding_all decide

set_option maxRecDepth 4000 in
/-- Witness for C4 (amended), at the same crossing-deadlock scenario:
the escape resolves to `min (0.6 × max) 5 = 5 > 0`. -/
theorem deadlock_crossing_escape_clamped_witness :
    (speedDecision realisticMath [] 10 c4vehicle [c4laneH, c4laneV]
      [c4vehicle, c4blocker]).1 = min ((10 : ℚ) * 0.6) 5 ∧
    0 < (speedDecision realisticMath [] 10 c4vehicle [c4laneH, c4laneV]
      [c4vehicle, c4blocker]).1 :=
  deadlock_crossing_escape_clamped realisticMath [] 10 [c4laneH, c4laneV]
    [c4vehicle, c4blocker] c4vehicle (-10) c4blocker 10
    (by with_unfolding_all decide) (by with_unfolding_all decide) (by decide)
    (by decide) (by decide) (by decide) (by decide) (by decide)
    (by with_unfolding_all decide)

/-- `maxSpeed || globalSpeed` is nonnegative when both sources are. -/
theorem orElseG_nonneg (mo : Option ℚ) (g : ℚ) (hg : 0 ≤ g)
    (hms : ∀ m, mo = some m → 0 ≤ m) : 0 ≤ orElseG mo g := by
  unfold orElseG
  cases hmo : mo with
  | none => exact hg
  | some m =>
    dsimp only
    split
    · exact hg
    · exact hms m hmo

/-- The deadlock proceed speed is nonnegative. -/
theorem deadlockSpeed_nonneg (vehicle : Vehicle) (g : ℚ) (hg : 0 ≤ g)
    (hms : ∀ m, vehicle.maxSpeed = some m → 0 ≤ m) : 0 ≤ deadlockSpeed vehicle g := by
  unfold deadlockSpeed
  cases hmv : vehicle.maxSpeed with
  | none => exact mul_nonneg hg (by norm_num)
  | some m => exact mul_nonneg (hms m hmv) (by norm_num)

/-- `handleDeadlock` never resolves a negative speed. -/
theorem handleDeadlock_nonneg (g : ℚ) (vehicle : Vehicle) (lead : Option Vehicle)
    (isCross : Bool) (cur : ℚ) (clear : Bool) (all : List Vehicle)
    (hg : 0 ≤ g) (hcur : 0 ≤ cur)
    (hms : ∀ m, vehicle.maxSpeed = some m → 0 ≤ m) :
    0 ≤ (handleDeadlock g vehicle lead isCross cur clear all).1 := by
  have hds := deadlockSpeed_nonneg vehicle g hg hms
  unfold handleDeadlock
  split
  · split
    · split
      · split
        · exact hds
        · exact hcur
      · exact hcur
    · exact hcur
  · dsimp only
    split
    · exact hds
    · exact hcur

/-- `handleSafetyZone` never resolves a negative speed (given a
nonnegative lead speed). -/
theorem handleSafetyZone_nonneg (g : ℚ) (vehicle : Vehicle) (lead : Option Vehicle)
    (cur : ℚ) (nbv : List (String × Nat)) (hg : 0 ≤ g) (hsp : 0 ≤ vehicle.speed)
    (hlead : ∀ l, lead = some l → 0 ≤ l.speed)
    (hms : ∀ m, vehicle.maxSpeed = some m → 0 ≤ m) :
    0 ≤ (handleSafetyZone g vehicle lead cur nbv).1 := by
  unfold handleSafetyZone
  cases hl : lead with
  | some l =>
    dsimp only
    refine le_min (mul_nonneg (hlead l hl) (by norm_num)) ?_
    rw [MIN_VEHICLE_SPEED]
    exact le_max_left 0 _
  | none =>
    dsimp only
    exact le_min (orElseG_nonneg vehicle.maxSpeed g hg hms)
      (by rw [VEHICLE_ACCELERATION]; linarith)

/-- The minimum-gap scan picks its vehicle from the scanned list (or
passes the accumulator through). -/
theorem bestOf_mem (f : Vehicle → ℚ) (flag : Bool) :
    ∀ (l : List Vehicle) (acc : Option (ℚ × Vehicle × Bool)) (d : ℚ) (w : Vehicle)
      (c : Bool), bestOf f flag l acc = some (d, w, c) →
      (w ∈ l ∧ c = flag) ∨ acc = some (d, w, c) := by
  intro l
  induction l with
  | nil => intro acc d w c h; exact Or.inr h
  | cons x xs ih =>
    intro acc d w c h
    rw [bestOf.eq_def] at h
    dsimp only at h
    rcases ih _ _ _ _ h with ⟨hmem, hc⟩ | hacc
    · exact Or.inl ⟨List.mem_cons_of_mem _ hmem, hc⟩
    · split at hacc
      · simp only [Option.some.injEq, Prod.mk.injEq] at hacc
        exact Or.inl ⟨by rw [← hacc.2.1]; exact List.mem_cons_self x xs, hacc.2.2.symm⟩
      · exact Or.inr hacc

/-- The nearest perceived vehicle comes from the perception lists. -/
theorem distanceToNearestVehicle_lead_mem (M : MathModel) (vehicle : Vehicle)
    (blockingInfo : List Vehicle × List Vehicle) (lanes : List Lane)
    (vs : List Vehicle) (d : ℚ) (w : Vehicle) (c : Bool)
    (hF : ∀ x ∈ blockingInfo.1, x ∈ vs) (hC : ∀ x ∈ blockingInfo.2, x ∈ vs)
    (h : distanceToNearestVehicle M vehicle blockingInfo lanes = some (d, w, c)) :
    w ∈ vs := by
  obtain ⟨F, C⟩ := blockingInfo
  unfold distanceToNearestVehicle at h
  dsimp only at h
  split at h
  · exact absurd h (by simp)
  · split at h
    · exact absurd h (by simp)
    · rcases bestOf_mem _ _ _ _ _ _ _ h with ⟨hmem, _⟩ | h2
      · exact hC _ hmem
      · rcases bestOf_mem _ _ _ _ _ _ _ h2 with ⟨hmem, _⟩ | h3
        · exact hF _ hmem
        · exact absurd h3 (by simp)

/-- Both perception lists are sublists of the scanned vehicle set. -/
theorem getBlockingVehicles_subset (M : MathModel) (loadedRoads : List Road)
    (vehicle : Vehicle) (vehicles : List Vehicle) (lanes : List Lane) :
    (∀ w ∈ (getBlockingVehicles M loadedRoads vehicle vehicles lanes).1, w ∈ vehicles) ∧
    (∀ w ∈ (getBlockingVehicles M loadedRoads vehicle vehicles lanes).2, w ∈ vehicles) := by
  unfold getBlockingVehicles
  cases hl : currentLaneOf lanes vehicle with
  | none => simp
  | some lane =>
    dsimp only
    constructor <;> intro w hw <;> exact List.mem_of_mem_filter hw

/-- The if/else-if speed chain never resolves a negative speed. -/
theorem speedChain_nonneg (M : MathModel) (loadedRoads : List Road) (g : ℚ)
    (vehicle : Vehicle) (lanes : List Lane) (allVehicles : List Vehicle)
    (hg : 0 ≤ g) (hsp : 0 ≤ vehicle.speed)
    (hms : ∀ m, vehicle.maxSpeed = some m → 0 ≤ m)
    (hall : ∀ u ∈ allVehicles, 0 ≤ u.speed) :
    0 ≤ (speedChain M loadedRoads g vehicle lanes allVehicles).1 := by
  unfold speedChain
  dsimp only
  cases hd : distanceToNearestVehicle M vehicle
      (getBlockingVehicles M loadedRoads vehicle allVehicles lanes) lanes with
  | none => exact hsp
  | some tup =>
    obtain ⟨d, lead, cross⟩ := tup
    have hsub := getBlockingVehicles_subset M loadedRoads vehicle allVehicles lanes
    have hleadmem : lead ∈ allVehicles :=
      distanceToNearestVehicle_lead_mem M vehicle _ lanes allVehicles d lead cross
        hsub.1 hsub.2 hd
    have hlead : 0 ≤ lead.speed := hall _ hleadmem
    dsimp only
    split
    · split
      · exact handleDeadlock_nonneg g vehicle (some lead) cross 0 false allVehicles
          hg le_rfl hms
      · norm_num
    · split
      · split
        · exact handleDeadlock_nonneg g vehicle (some lead) cross vehicle.speed true
            allVehicles hg hsp hms
        · exact handleSafetyZone_nonneg g vehicle (some lead) vehicle.speed [] hg hsp
            (by intro l hl; injection hl with hl; rw [← hl]; exact hlead) hms
      · split
        · split
          · exact le_trans hlead (le_max_left _ _)
          · exact hsp
        · exact hsp

/-- The full speed policy (chain + acceleration + failsafe) never
resolves a negative speed. -/
theorem speedDecision_nonneg (M : MathModel) (loadedRoads : List Road) (g : ℚ)
    (vehicle : Vehicle) (lanes : List Lane) (allVehicles : List Vehicle)
    (hg : 0 ≤ g) (hsp : 0 ≤ vehicle.speed)
    (hms : ∀ m, vehicle.maxSpeed = some m → 0 ≤ m)
    (hall : ∀ u ∈ allVehicles, 0 ≤ u.speed) :
    0 ≤ (speedDecision M loadedRoads g vehicle lanes allVehicles).1 := by
  have hchain := speedChain_nonneg M loadedRoads g vehicle lanes allVehicles hg hsp hms hall
  have hor := orElseG_nonneg vehicle.maxSpeed g hg hms
  unfold speedDecision
  dsimp only
  split
  · refine le_min (mul_nonneg hor (by norm_num)) ?_
    split
    · have h1 : (0 : ℚ) ≤ min (orElseG vehicle.maxSpeed g) (vehicle.speed + 2) :=
        le_min hor (by linarith)
      rw [VEHICLE_ACCELERATION]
      linarith
    · rw [VEHICLE_ACCELERATION]
      linarith
  · split
    · exact le_min hor (by rw [VEHICLE_ACCELERATION]; linarith)
    · exact hchain

/-- C5 (amended).  No-regression: under nonnegative speeds (global speed,
the vehicle's own speed and personal maximum, and every other vehicle's
speed), the resolved new speed is never negative, and for a vehicle kept
by `updateVehicle` the pair `(currentLaneIndex, progress)` never decreases
lexicographically: either the lane index strictly increases (lane
transition) or it is unchanged and progress does not decrease.
`updateVehicle` never decreases `currentLaneIndex` in any case.  The
nonnegativity provisos are necessary: a global speed below 5 lets the
spawn jitter produce a negative personal maximum, after which the resolved
speed is negative and progress decreases (see the counterexample below). -/
theorem no_regression (M : MathModel) (loadedRoads : List Road) (g : ℚ)
    (lanes : List Lane) (allVehicles : List Vehicle) (seed : Nat) (vehicle : Vehicle)
    (m : ℚ) (hms : vehicle.maxSpeed = some m) (hm : 0 ≤ m) (hg : 0 ≤ g)
    (hsp : 0 ≤ vehicle.speed) (hall : ∀ u ∈ allVehicles, 0 ≤ u.speed) :
    0 ≤ (speedDecision M loadedRoads g vehicle lanes allVehicles).1 ∧
    (∀ v2 s2, updateVehicle M loadedRoads g lanes allVehicles seed vehicle = (some v2, s2) →
       (vehicle.currentLaneIndex < v2.currentLaneIndex ∨
        (v2.currentLaneIndex = vehicle.currentLaneIndex ∧ vehicle.progress ≤ v2.progress))) := by
  have hms' : ∀ m0, vehicle.maxSpeed = some m0 → 0 ≤ m0 := by
    intro m0 h0
    rw [hms] at h0
    injection h0 with h0
    rw [← h0]
    exact hm
  have hnn := speedDecision_nonneg M loadedRoads g vehicle lanes allVehicles hg hsp hms' hall
  refine ⟨hnn, ?_⟩
  intro v2 s2 hupd
  unfold updateVehicle at hupd
  cases hlane : currentLaneOf lanes vehicle with
  | none =>
    rw [hlane] at hupd
    simp only [Prod.mk.injEq, Option.some.injEq] at hupd
    exact Or.inr ⟨by rw [← hupd.1], by rw [← hupd.1]⟩
  | some lane =>
    rw [hlane] at hupd
    dsimp only at hupd
    by_cases hpts : lane.points.length < 2
    · rw [if_pos hpts] at hupd
      simp only [Prod.mk.injEq, Option.some.injEq] at hupd
      exact Or.inr ⟨by rw [← hupd.1], by rw [← hupd.1]⟩
    · rw [if_neg hpts] at hupd
      simp only [hms] at hupd
      split at hupd
      · simp only [Prod.mk.injEq, Option.some.injEq] at hupd
        refine Or.inr ⟨by rw [← hupd.1], ?_⟩
        rw [← hupd.1]
        dsimp only
        linarith
      · split at hupd
        · simp only [Prod.mk.injEq, Option.some.injEq] at hupd
          refine Or.inl ?_
          rw [← hupd.1]
          dsimp only
          omega
        · exact absurd hupd (by simp)

/-- C1 (amended).  Progress bounds: under nonnegative speeds, a vehicle
kept by `updateVehicle` always has `0 ≤ progress`; and whenever it stays
on its current lane, `progress < lane_length(current_lane)`.  The upper
bound does NOT extend across lane transitions: the leftover progress
carried into the next route lane is only guaranteed nonnegative and can
exceed that next lane's length (see the counterexample below). -/
theorem progress_bounds (M : MathModel) (loadedRoads : List Road) (g : ℚ)
    (lanes : List Lane) (allVehicles : List Vehicle) (seed : Nat) (vehicle : Vehicle)
    (lane : Lane) (m : ℚ)
    (hlane : currentLaneOf lanes vehicle = some lane)
    (hpts : ¬ lane.points.length < 2)
    (hms : vehicle.maxSpeed = some m) (hm : 0 ≤ m) (hg : 0 ≤ g)
    (hsp : 0 ≤ vehicle.speed) (hpr : 0 ≤ vehicle.progress)
    (hall : ∀ u ∈ allVehicles, 0 ≤ u.speed) :
    ∀ v2 s2, updateVehicle M loadedRoads g lanes allVehicles seed vehicle = (some v2, s2) →
      0 ≤ v2.progress ∧
      (v2.currentLaneIndex = vehicle.currentLaneIndex →
        v2.progress < computeLaneLength M lane) := by
  have hms' : ∀ m0, vehicle.maxSpeed = some m0 → 0 ≤ m0 := by
    intro m0 h0
    rw [hms] at h0
    injection h0 with h0
    rw [← h0]
    exact hm
  have hnn := speedDecision_nonneg M loadedRoads g vehicle lanes allVehicles hg hsp hms' hall
  intro v2 s2 hupd
  unfold updateVehicle at hupd
  rw [hlane] at hupd
  dsimp only at hupd
  rw [if_neg hpts] at hupd
  simp only [hms] at hupd
  split at hupd
  · next hlt =>
    simp only [Prod.mk.injEq, Option.some.injEq] at hupd
    constructor
    · rw [← hupd.1]
      dsimp only
      linarith
    · intro _
      rw [← hupd.1]
      dsimp only
      exact hlt
  · next hge =>
    split at hupd
    · simp only [Prod.mk.injEq, Option.some.injEq] at hupd
      constructor
      · rw [← hupd.1]
        dsimp only
        simp only [not_lt] at hge
        linarith
      · intro hidx
        rw [← hupd.1] at hidx
        dsimp only at hidx
        omega
    · exact absurd hupd (by simp)

def c5lane : Lane :=
  { id := "W", name := "W", points := [⟨0, 0, 1⟩, ⟨100, 0, 1⟩],
    links := ⟨none, none, none⟩, roadId := none, color := "c" }

def c5vehicle : Vehicle :=
  { id := "1", vtype := "car", route := ["W"], currentLaneIndex := 0, progress := 0,
    speed := 10, position := ⟨0, 0⟩, sourceRoadId := "R", targetRoadId := "R",
    color := "c", visible := true, dimLength := 20, dimWidth := 10, rot := 0,
    stoppedSince := 0, maxSpeed := some 10 }

def c5result : Vehicle :=
  { c5vehicle with progress := 10, position := ⟨10, 0⟩ }

set_option maxRecDepth 4000 in
/-- Witness for C5: an unobstructed vehicle advances within its lane and
its `(lane index, progress)` pair does not decrease. -/
theorem no_regression_witness :
    0 ≤ (speedDecision realisticMath [] 10 c5vehicle [c5lane] [c5vehicle]).1 ∧
    (c5vehicle.currentLaneIndex < c5result.currentLaneIndex ∨
     (c5result.currentLaneIndex = c5vehicle.currentLaneIndex ∧
      c5vehicle.progress ≤ c5result.progress)) :=
  ⟨(no_regression realisticMath [] 10 [c5lane] [c5vehicle] 2 c5vehicle 10 rfl
      (by norm_num) (by norm_num) (by with_unfolding_all decide)
      (by with_unfolding_all decide)).1,
   (no_regression realisticMath [] 10 [c5lane] [c5vehicle] 2 c5vehicle 10 rfl
      (by norm_num) (by norm_num) (by with_unfolding_all decide)
      (by with_unfolding_all decide)).2 c5result 2 (by with_unfolding_all decide)⟩

def c5cexRoad : Road :=
  { id := "C5R", name := "C5R", color := "gray" }

def c5cexLane : Lane :=
  { id := "C5L", name := "C5L", points := [⟨0, 0, 1⟩, ⟨0, 100, 1⟩],
    links := ⟨none, none, none⟩, roadId := some "C5R", color := "c" }

def c5cexSettings : String → Option RoadSettings := fun _ => some ⟨1, 0⟩

def c5cexState : SimulationState := ⟨[c5cexRoad], [c5cexLane], []⟩

def c5cexTick1 : SimulationState × Nat × Nat :=
  simulationStep realisticMath [] c5cexSettings 0 (fun ls => ls) 2 0 c5cexState

def c5cexTick2 : SimulationState × Nat × Nat :=
  simulationStep realisticMath [] c5cexSettings 0 (fun ls => ls)
    c5cexTick1.2.1 c5cexTick1.2.2 c5cexTick1.1

set_option maxRecDepth 4000 in
/-- C5 (counterexample).  With global speed 0 (the minimum the settings
slider allows), the spawn jitter `g + (random()*10 - 5)` gives the vehicle
spawned on the first tick a negative personal maximum, and on the second
tick `updateVehicle` resolves a negative speed (0.6x that negative maximum
via the low-speed failsafe): the same vehicle appears in two consecutive
`simulationStep` snapshots with an unchanged lane index and its progress
strictly decreased from 0 to a negative value, refuting the unconditional
no-regression claim. -/
theorem no_regression_cex :
    c5cexTick1.1.vehicles.map (fun v => (v.id, v.currentLaneIndex, v.progress)) =
      [("1", 0, 0)] ∧
    c5cexTick2.1.vehicles.map (fun v => (v.id, v.currentLaneIndex, v.progress, v.speed)) =
      [("1", 0, -(4007844807 / 2147483648), -(4007844807 / 2147483648))] ∧
    (-(4007844807 / 2147483648) : ℚ) < 0 :=
  ⟨by with_unfolding_all rfl, by with_unfolding_all rfl, by norm_num⟩

def c1witLane : Lane :=
  { id := "P", name := "P", points := [⟨0, 0, 1⟩, ⟨100, 0, 1⟩],
    links := ⟨none, none, none⟩, roadId := none, color := "c" }

def c1witVehicle : Vehicle :=
  { id := "1", vtype := "car", route := ["P"], currentLaneIndex := 0, progress := 0,
    speed := 10, position := ⟨0, 0⟩, sourceRoadId := "R", targetRoadId := "R",
    color := "c", visible := true, dimLength := 20, dimWidth := 10, rot := 0,
    stoppedSince := 0, maxSpeed := some 10 }

def c1witResult : Vehicle :=
  { c1witVehicle with progress := 10, position := ⟨10, 0⟩ }

set_option maxRecDepth 4000 in
/-- Witness for C1 (amended): within-lane advancement keeps
`0 ≤ progress < lane length`. -/
theorem progress_bounds_witness :
    0 ≤ c1witResult.progress ∧
    (c1witResult.currentLaneIndex = c1witVehicle.currentLaneIndex →
      c1witResult.progress < computeLaneLength realisticMath c1witLane) :=
  progress_bounds realisticMath [] 10 [c1witLane] [c1witVehicle] 2 c1witVehicle
    c1witLane 10 (by with_unfolding_all decide) (by decide) rfl (by norm_num)
    (by norm_num) (by with_unfolding_all decide) (by with_unfolding_all decide)
    (by with_unfolding_all decide) c1witResult 2 (by with_unfolding_all decide)

def c1laneL1 : Lane :=
  { id := "L1", name := "L1", points := [⟨0, 0, 1⟩, ⟨5, 0, 1⟩],
    links := ⟨some "L2", none, none⟩, roadId := none, color := "c" }

def c1laneL2 : Lane :=
  { id := "L2", name := "L2", points := [⟨5, 0, 1⟩, ⟨7, 0, 1⟩],
    links := ⟨some "L3", none, none⟩, roadId := none, color := "c" }

def c1laneL3 : Lane :=
  { id := "L3", name := "L3", points := [⟨7, 0, 1⟩, ⟨107, 0, 1⟩],
    links := ⟨none, none, none⟩, roadId := none, color := "c" }

def c1vehicle : Vehicle :=
  { id := "1", vtype := "car", route := ["L1", "L2", "L3"], currentLaneIndex := 0,
    progress := 0, speed := 10, position := ⟨0, 0⟩, sourceRoadId := "R",
    targetRoadId := "R", color := "c", visible := true, dimLength := 20,
    dimWidth := 10, rot := 0, stoppedSince := 0, maxSpeed := some 10 }

def c1state : SimulationState :=
  { roads := [], lanes := [c1laneL1, c1laneL2, c1laneL3], vehicles := [c1vehicle] }

set_option maxRecDepth 4000 in
/-- Counterexample to C1 as stated: a vehicle travelling at speed 10 on a
5-unit lane whose successor lane is only 2 units long ends the tick (a
full `simulationStep`) on route index 1 with progress 5, which exceeds
that lane's length 2 — the leftover carried into the next lane is not
clamped to the next lane's length. -/
theorem progress_invariant_cex :
    ((simulationStep realisticMath [] (fun _ => none) 10 id 2 0 c1state).1.vehicles.map
      (fun v => (v.currentLaneIndex, v.progress))) = [(1, 5)] ∧
    computeLaneLength realisticMath c1laneL2 = 2 ∧
    ¬ ((5 : ℚ) ≤ 2) := by
  with_unfolding_all decide

def c8road : Road := { id := "R", name := "R", color := "red" }

def c8lane : Lane :=
  { id := "E", name := "E", points := [⟨3, 4, 1⟩, ⟨3, 104, 1⟩],
    links := ⟨none, none, none⟩, roadId := some "R", color := "red" }

def c8state : SimulationState := { roads := [c8road], lanes := [c8lane], vehicles := [] }

def c8settings : String → Option RoadSettings := fun _ => some ⟨1, 0⟩


/-- C8.  Spawn postcondition: when a spawn attempt for a road succeeds,
the chosen entry lane is the first candidate entry lane with no existing
vehicle within the fixed clearance threshold (30) of the lane's start, and
the spawned vehicle starts at that lane's first point with progress 0,
stopped-ticks counter 0, route index 0, and initial speed exactly 70% of
its jittered personal maximum; if every candidate is busy, no vehicle is
spawned for that road this tick. -/
theorem spawn_postcondition (settings : String → Option RoadSettings) (g : ℚ)
    (shuffle : List Lane → List Lane) (state : SimulationState) (road : Road)
    (seed counter : Nat) :
    (∀ veh seed2 counter2,
       spawnForRoad settings g shuffle state road seed counter =
         (some veh, seed2, counter2) →
       ∃ entry, (getCandidateEntryLanes state.lanes road.id).find?
           (fun candidate => !laneBusy state.vehicles candidate) = some entry ∧
         entry ∈ getCandidateEntryLanes state.lanes road.id ∧
         laneBusy state.vehicles entry = false ∧
         veh.progress = 0 ∧ veh.stoppedSince = 0 ∧ veh.currentLaneIndex = 0 ∧
         veh.position = ⟨(entry.points.getD 0 defaultLanePoint).x,
                         (entry.points.getD 0 defaultLanePoint).y⟩ ∧
         ∃ ms, veh.maxSpeed = some ms ∧ veh.speed = ms * 0.7) ∧
    ((∀ c ∈ getCandidateEntryLanes state.lanes road.id,
        laneBusy state.vehicles c = true) →
      (spawnForRoad settings g shuffle state road seed counter).1 = none) := by
  constructor
  · intro veh seed2 counter2 h
    simp only [spawnForRoad] at h
    split at h
    · split at h
      · exact absurd h (by simp)
      · next entry heq =>
        -- heq : (if candidates.length > 0 then find? else none) = some entry
        have hfind : (getCandidateEntryLanes state.lanes road.id).find?
            (fun candidate => !laneBusy state.vehicles candidate) = some entry := by
          split at heq
          · exact heq
          · exact absurd heq (by simp)
        refine ⟨entry, hfind, List.mem_of_find?_eq_some hfind, ?_, ?_⟩
        · have hp := List.find?_some hfind
          simpa using hp
        · split at h
          · exact absurd h (by simp)
          · simp only [Prod.mk.injEq, Option.some.injEq] at h
            rw [← h.1]
            refine ⟨rfl, rfl, rfl, rfl, ?_⟩
            exact ⟨_, rfl, rfl⟩
    · exact absurd h (by simp)
  · intro hbusy
    simp only [spawnForRoad]
    split
    · have hfind : (getCandidateEntryLanes state.lanes road.id).find?
          (fun candidate => !laneBusy state.vehicles candidate) = none := by
        rw [List.find?_eq_none]
        intro a ha
        simp [hbusy a ha]
      split
      · rfl
      · next entry heq =>
        exfalso
        have : (getCandidateEntryLanes state.lanes road.id).find?
            (fun candidate => !laneBusy state.vehicles candidate) = some entry := by
          split at heq
          · exact heq
          · exact absurd heq (by simp)
        rw [hfind] at this
        exact absurd this (by simp)
    · rfl


def c8veh : Vehicle :=
  { id := "1", vtype := "car", route := ["E"], currentLaneIndex := 0, progress := 0,
    speed := 20713133189 / 4294967296, position := ⟨3, 4⟩, sourceRoadId := "R",
    targetRoadId := "R", color := "red", visible := true, dimLength := 20,
    dimWidth := 10, rot := 0, stoppedSince := 0,
    maxSpeed := some (14795095135 / 2147483648), blockingVehicles := [] }

set_option maxRecDepth 4000 in
/-- Witness for C8: a concrete successful spawn (inflow 1, seed 2) on a
single-lane road produces a vehicle at the entry lane's first point
`(3, 4)` with progress 0, stopped counter 0 and speed `0.7 × maxSpeed`. -/
theorem spawn_postcondition_witness :
    ∃ entry, (getCandidateEntryLanes c8state.lanes c8road.id).find?
        (fun candidate => !laneBusy c8state.vehicles candidate) = some entry ∧
      entry ∈ getCandidateEntryLanes c8state.lanes c8road.id ∧
      laneBusy c8state.vehicles entry = false ∧
      c8veh.progress = 0 ∧ c8veh.stoppedSince = 0 ∧ c8veh.currentLaneIndex = 0 ∧
      c8veh.position = ⟨(entry.points.getD 0 defaultLanePoint).x,
                        (entry.points.getD 0 defaultLanePoint).y⟩ ∧
      ∃ ms, c8veh.maxSpeed = some ms ∧ c8veh.speed = ms * 0.7 :=
  (spawn_postcondition c8settings 10 id c8state c8road 2 0).1 c8veh 811535379 1
    (by with_unfolding_all rfl)

/-- Boolean check that consecutive route entries are linked: each lane on
the route links (via `forward`/`forward_left`/`forward_right`) to the next
entry. -/
def routeChainHolds (lanes : List Lane) : List String → Bool
  | [] => true
  | [_] => true
  | a :: b :: rest =>
    (match findLaneById lanes a with
     | some la => (laneLinksList la).contains b
     | none => false) && routeChainHolds lanes (b :: rest)

/-- Boolean check that a route ends at an end lane of the target road. -/
def endsAtEndLane (lanes : List Lane) (targetRoadId : String) (r : List String) : Bool :=
  match r.getLast? with
  | none => false
  | some z =>
    match findLaneById lanes z with
    | some lz => isEndLane lz targetRoadId
    | none => false

/-- Postcondition of a successful `dfsRoute` call: the returned route
extends `path` by a nonempty suffix that starts at the current lane,
repeats no lane, avoids everything already visited, follows links, and
ends at an end lane of the target road. -/
def DfsPost (lanes : List Lane) (target : String) (visited : List String)
    (cur : String) (path r : List String) : Prop :=
  ∃ suffix, suffix ≠ [] ∧ r = path ++ suffix ∧ suffix.head? = some cur ∧
    suffix.Nodup ∧ (∀ x ∈ suffix, x ∉ visited) ∧
    routeChainHolds lanes suffix = true ∧ endsAtEndLane lanes target suffix = true

/-- The DFS only ever grows the visited set. -/
theorem dfsRoute_visited_mono (lanes : List Lane) (target : String) :
    ∀ fuel visited cur path x, x ∈ visited →
      x ∈ (dfsRoute lanes target fuel visited cur path).2 := by
  intro fuel
  induction fuel with
  | zero => intro visited cur path x hx; simpa [dfsRoute] using hx
  | succ f ih =>
    intro visited cur path x hx
    simp only [dfsRoute]
    split
    · exact hx
    · split
      · exact List.mem_cons_of_mem _ hx
      · split
        · exact List.mem_cons_of_mem _ hx
        · -- the dfsLinks loop also only grows visited
          have haux : ∀ (nexts : List String) (vis : List String) (p : List String) (y : String),
              y ∈ vis → y ∈ (dfsLinks lanes target f vis nexts p).2 := by
            intro nexts
            induction nexts with
            | nil => intro vis p y hy; simpa [dfsLinks] using hy
            | cons n rest ihn =>
              intro vis p y hy
              simp only [dfsLinks]
              split
              · next r v2 heq =>
                have h2 := ih vis n p y hy
                rw [heq] at h2
                exact h2
              · next v2 heq =>
                have h2 := ih vis n p y hy
                rw [heq] at h2
                exact ihn v2 p y h2
          exact haux _ _ _ x (List.mem_cons_of_mem _ hx)

/-- Postcondition transfer through the link loop, given it for one fuel
level of the DFS. -/
theorem dfsLinks_post_of (lanes : List Lane) (target : String) (fuel : Nat)
    (hR : ∀ visited cur path r v2,
      dfsRoute lanes target fuel visited cur path = (some r, v2) →
      DfsPost lanes target visited cur path r) :
    ∀ nexts visited path r v2,
      dfsLinks lanes target fuel visited nexts path = (some r, v2) →
      ∃ n, n ∈ nexts ∧ DfsPost lanes target visited n path r := by
  intro nexts
  induction nexts with
  | nil => intro visited path r v2 h; simp [dfsLinks] at h
  | cons n rest ihn =>
    intro visited path r v2 h
    simp only [dfsLinks] at h
    split at h
    · next r0 v0 heq =>
      simp only [Prod.mk.injEq, Option.some.injEq] at h
      rw [h.1] at heq
      exact ⟨n, List.mem_cons_self n rest, hR _ _ _ _ _ heq⟩
    · next v0 heq =>
      obtain ⟨n2, hn2, post⟩ := ihn v0 path r v2 h
      obtain ⟨suffix, hne, hr, hh, hnd, hdisj, hchain, hend⟩ := post
      refine ⟨n2, List.mem_cons_of_mem _ hn2,
        suffix, hne, hr, hh, hnd, ?_, hchain, hend⟩
      intro x hxs hxv
      have hx0 : x ∈ v0 := by
        have hmono := dfsRoute_visited_mono lanes target fuel visited n path x hxv
        rw [heq] at hmono
        exact hmono
      exact hdisj x hxs hx0

/-- Postcondition of a successful `dfsRoute` call. -/
theorem dfsRoute_post (lanes : List Lane) (target : String) :
    ∀ fuel visited cur path r v2,
      dfsRoute lanes target fuel visited cur path = (some r, v2) →
      DfsPost lanes target visited cur path r := by
  intro fuel
  induction fuel with
  | zero => intro visited cur path r v2 h; simp [dfsRoute] at h
  | succ f ih =>
    intro visited cur path r v2 h
    simp only [dfsRoute] at h
    split at h
    · exact absurd h (by simp)
    · next hnv =>
      split at h
      · exact absurd h (by simp)
      · next lane hfind =>
        split at h
        · next hend =>
          simp only [Prod.mk.injEq, Option.some.injEq] at h
          refine ⟨[cur], by simp, by rw [← h.1], rfl, List.nodup_singleton _, ?_, ?_, ?_⟩
          · intro x hx
            rw [List.mem_singleton] at hx
            subst hx
            exact hnv
          · simp [routeChainHolds]
          · simp [endsAtEndLane, hfind, hend]
        · next hendF =>
          obtain ⟨n, hn, post⟩ := dfsLinks_post_of lanes target f ih _ _ _ _ _ h
          obtain ⟨suffix, hne, hr, hh, hnd, hdisj, hchain, hend2⟩ := post
          have hcs : cur ∉ suffix := by
            intro hcur
            exact hdisj cur hcur (List.mem_cons_self _ _)
          refine ⟨cur :: suffix, by simp, ?_, rfl,
            List.nodup_cons.mpr ⟨hcs, hnd⟩, ?_, ?_, ?_⟩
          · rw [hr, List.append_assoc]
            rfl
          · intro x hx
            rcases List.mem_cons.mp hx with hx1 | hx2
            · subst hx1
              exact hnv
            · intro hxv
              exact hdisj x hx2 (List.mem_cons_of_mem _ hxv)
          · cases suffix with
            | nil => exact absurd rfl hne
            | cons s0 srest =>
              have hs0 : s0 = n := by simpa using hh
              have hmem : (laneLinksList lane).contains s0 = true := by
                rw [hs0]
                exact List.elem_eq_true_of_mem hn
              simp only [routeChainHolds, hfind, hmem, Bool.true_and]
              exact hchain
          · cases suffix with
            | nil => exact absurd rfl hne
            | cons s0 srest =>
              simp only [endsAtEndLane, List.getLast?_cons_cons] at hend2 ⊢
              exact hend2

/-- C2.  Route validity: whenever `findRoute` returns a route it starts
at the requested start lane, never repeats a lane id, follows the lane
links step by step, and ends at a lane owned by the target road with all
three links absent; and when no link-chain from the start lane to such an
end lane exists at all, `findRoute` returns `null`. -/
theorem findRoute_valid (lanes : List Lane) (startLaneId targetRoadId : String) :
    (∀ r, findRoute lanes startLaneId targetRoadId = some r →
       r.head? = some startLaneId ∧ r.Nodup ∧
       routeChainHolds lanes r = true ∧
       endsAtEndLane lanes targetRoadId r = true) ∧
    ((¬ ∃ r, r.head? = some startLaneId ∧ routeChainHolds lanes r = true ∧
        endsAtEndLane lanes targetRoadId r = true) →
      findRoute lanes startLaneId targetRoadId = none) := by
  have hmain : ∀ r, findRoute lanes startLaneId targetRoadId = some r →
      r.head? = some startLaneId ∧ r.Nodup ∧
      routeChainHolds lanes r = true ∧
      endsAtEndLane lanes targetRoadId r = true := by
    intro r h
    unfold findRoute at h
    rcases hdfs : dfsRoute lanes targetRoadId (3 * lanes.length + 2) [] startLaneId []
      with ⟨o, v2⟩
    rw [hdfs] at h
    dsimp only at h
    rw [h] at hdfs
    obtain ⟨suffix, hne, hr, hh, hnd, _, hchain, hend⟩ :=
      dfsRoute_post lanes targetRoadId _ _ _ _ r v2 hdfs
    rw [List.nil_append] at hr
    subst hr
    exact ⟨hh, hnd, hchain, hend⟩
  refine ⟨hmain, ?_⟩
  intro hne
  cases hfr : findRoute lanes startLaneId targetRoadId with
  | none => rfl
  | some r =>
    exfalso
    obtain ⟨hh, hnd, hchain, hend⟩ := hmain r hfr
    exact hne ⟨r, hh, hchain, hend⟩


def c2laneA : Lane :=
  { id := "a", name := "a", points := [⟨0, 0, 1⟩, ⟨10, 0, 1⟩],
    links := ⟨some "b", none, none⟩, roadId := some "R0", color := "c" }

def c2laneB : Lane :=
  { id := "b", name := "b", points := [⟨10, 0, 1⟩, ⟨20, 0, 1⟩],
    links := ⟨none, none, none⟩, roadId := some "RT", color := "c" }

/-- Witness for C2: on a two-lane network the returned route `["a", "b"]`
starts at the entry, is duplicate-free, follows the links and ends at the
target road's end lane. -/
theorem findRoute_valid_witness :
    (["a", "b"] : List String).head? = some "a" ∧
    (["a", "b"] : List String).Nodup ∧
    routeChainHolds [c2laneA, c2laneB] ["a", "b"] = true ∧
    endsAtEndLane [c2laneA, c2laneB] "RT" ["a", "b"] = true :=
  (findRoute_valid [c2laneA, c2laneB] "a" "RT").1 ["a", "b"]
    (by with_unfolding_all rfl)
